import Mathlib

/-!
Verification of the Easter-computus repository.

The core of the repository is `calculateEasterYMD` in `src/easter.js`: the
Anonymous Gregorian Computus, mapping an integer year `y ≥ 1583` to a triple
`[year, month, day]`.  JavaScript `Math.floor(x / n)` on integers is floor
division (`Int.fdiv`), and the JavaScript remainder `x % n` keeps the sign of
the dividend (`Int.tmod`); the embedding below uses exactly those operations.
The UI layer (`src/main.js` and the unnamed module) contributes an inline
near-duplicate of the computus and three variants of `tenseSetter`, embedded
separately.
-/

/-- Errors signalled by `calculateEasterYMD` (`src/easter.js`): a JavaScript
`TypeError` or `RangeError`, each carrying its message. -/
inductive JSError where
  | typeError (msg : String)
  | rangeError (msg : String)
  deriving DecidableEq

deriving instance DecidableEq for Except

/-- Abstraction of the JavaScript values a caller can pass as the year,
keeping exactly the distinctions tested by the guard of `calculateEasterYMD`:
`typeof y !== 'number'` separates `nonNumber`; `Number.isInteger y`
separates `int` (a number with an integral value) from `nonIntNumber`
(a finite non-integral number such as `1582.5`) and `nan` (the number
`NaN`). -/
inductive JSInput where
  | int (n : Int)
  | nonIntNumber
  | nan
  | nonNumber
  deriving DecidableEq

/-- JavaScript `Number.isInteger` restricted to the abstraction `JSInput`:
true exactly on numbers with an integral value.  (`Number.isInteger` is false
on `NaN` and on non-integral numbers, and `typeof y !== 'number'` inputs never
reach it, but they fail the same combined guard.) -/
def JSInput.isIntegerNumber : JSInput → Bool
  | .int _ => true
  | _ => false

namespace EasterJS

/-- The constant `mc = 19` of `src/easter.js` (the Metonic cycle). -/
def mc : Int := 19

/-- The local `a = y % mc` of `calculateEasterYMD` (the Golden Number). -/
def a (y : Int) : Int := y.tmod mc

/-- The local `b = Math.floor(y / 100)` (the century number). -/
def b (y : Int) : Int := y.fdiv 100

/-- The local `c = y % 100` (the year within the century). -/
def c (y : Int) : Int := y.tmod 100

/-- The local `d = Math.floor(b / 4)`. -/
def d (y : Int) : Int := (b y).fdiv 4

/-- The local `e = b % 4`. -/
def e (y : Int) : Int := (b y).tmod 4

/-- The local `f = Math.floor((b + 8) / 25)`. -/
def f (y : Int) : Int := (b y + 8).fdiv 25

/-- The local `g = Math.floor((b - f + 1) / 3)`. -/
def g (y : Int) : Int := (b y - f y + 1).fdiv 3

/-- The local `h = ((mc * a) + b - d - g + 15) % 30` (the epact). -/
def h (y : Int) : Int := (mc * a y + b y - d y - g y + 15).tmod 30

/-- The local `i = Math.floor(c / 4)`. -/
def i (y : Int) : Int := (c y).fdiv 4

/-- The local `k = c % 4`. -/
def k (y : Int) : Int := (c y).tmod 4

/-- The local `l = (32 + (2 * e) + (2 * i) - h - k) % 7` (the weekday shift). -/
def l (y : Int) : Int := (32 + 2 * e y + 2 * EasterJS.i y - h y - k y).tmod 7

/-- The local `m = Math.floor((a + (11 * h) + (22 * l)) / 451)` (the overflow
correction). -/
def m (y : Int) : Int := (a y + 11 * h y + 22 * l y).fdiv 451

/-- The local `month = Math.floor((h + l - (7 * m) + 114) / 31)`. -/
def month (y : Int) : Int := (h y + l y - 7 * m y + 114).fdiv 31

/-- The local `day = ((h + l - (7 * m) + 114) % 31) + 1`. -/
def day (y : Int) : Int := (h y + l y - 7 * m y + 114).tmod 31 + 1

end EasterJS

/-- The exported `calculateEasterYMD` of `src/easter.js`: the two guards
(`throw new TypeError('year must be an integer')` when the input is not an
integer number, `throw new RangeError('Gregorian Easter is defined for years
>= 1583')` when `y < 1583`), then the computus, returning `[y, month, day]`. -/
def calculateEasterYMD : JSInput → Except JSError (Int × Int × Int)
  | .int y =>
      if y < 1583 then
        .error (.rangeError "Gregorian Easter is defined for years >= 1583")
      else
        .ok (y, EasterJS.month y, EasterJS.day y)
  | _ => .error (.typeError "year must be an integer")

namespace MainV1

/-- The constant `mc = 19` of the inline `calculateEaster` in the first
variant of `src/main.js`. -/
def mc : Int := 19

/-- The local `a = y % mc` of the inline `calculateEaster` (`src/main.js`,
first variant). -/
def a (y : Int) : Int := y.tmod mc

/-- The local `b = Math.floor(y / 100)` (`src/main.js`, first variant). -/
def b (y : Int) : Int := y.fdiv 100

/-- The local `c = y % 100` (`src/main.js`, first variant). -/
def c (y : Int) : Int := y.tmod 100

/-- The local `d = Math.floor(b / 4)` (`src/main.js`, first variant). -/
def d (y : Int) : Int := (b y).fdiv 4

/-- The local `e = b % 4` (`src/main.js`, first variant). -/
def e (y : Int) : Int := (b y).tmod 4

/-- The local `f = Math.floor((b + 8) / 25)` (`src/main.js`, first
variant). -/
def f (y : Int) : Int := (b y + 8).fdiv 25

/-- The local `g = Math.floor((b - f + 1) / 3)` (`src/main.js`, first
variant). -/
def g (y : Int) : Int := (b y - f y + 1).fdiv 3

/-- The local `h = ((mc * a) + b - d - g + 15) % 30` (`src/main.js`, first
variant). -/
def h (y : Int) : Int := (mc * a y + b y - d y - g y + 15).tmod 30

/-- The local `i = Math.floor(c / 4)` (`src/main.js`, first variant). -/
def i (y : Int) : Int := (c y).fdiv 4

/-- The local `k = c % 4` (`src/main.js`, first variant). -/
def k (y : Int) : Int := (c y).tmod 4

/-- The local `l = (32 + (2 * e) + (2 * i) - h - k) % 7` (`src/main.js`,
first variant). -/
def l (y : Int) : Int := (32 + 2 * e y + 2 * MainV1.i y - h y - k y).tmod 7

/-- The undeclared `m = Math.floor((a + (11 * h) + (22 * 1)) / 451)` of the
inline `calculateEaster` (`src/main.js`, first variant).  Note the literal
`1` where `src/easter.js` has the variable `l`. -/
def m (y : Int) : Int := (a y + 11 * h y + 22 * 1).fdiv 451

/-- The undeclared `month = Math.floor((h + l - (7 * m) + 114) / 31)`
(`src/main.js`, first variant). -/
def month (y : Int) : Int := (h y + l y - 7 * m y + 114).fdiv 31

/-- The undeclared `day = ((h + l - (7 * m) + 114) % 31) + 1`
(`src/main.js`, first variant). -/
def day (y : Int) : Int := (h y + l y - 7 * m y + 114).tmod 31 + 1

/-- The inline `calculateEaster` of the first variant of `src/main.js`
(no input guard of its own; its caller filters `isNaN(y) || y < 1583`),
returning `[y, month, day]`. -/
def calculateEaster (y : Int) : Int × Int × Int := (y, month y, day y)

/-- The `tenseSetter` of the first variant of `src/main.js`: a `let tenseWord`
left `undefined` (here `none`) unless one of the three `if` statements
assigns it; for `'future'` it assigns the string `'will Easter be'`. -/
def tenseSetter (t : String) : Option String :=
  if t = "past" then some "was Easter"
  else if t = "present" then some "is Easter"
  else if t = "future" then some "will Easter be"
  else none

end MainV1

namespace MainV2

/-- The `tenseSetter` of the second variant of `src/main.js`: early returns
for the three tenses (for `'future'` the string `'will Easter be'`), and
`''` otherwise. -/
def tenseSetter (t : String) : String :=
  if t = "past" then "was Easter"
  else if t = "present" then "is Easter"
  else if t = "future" then "will Easter be"
  else ""

end MainV2

namespace Part000

/-- The `tenseSetter` of `src/unnamed/part_000`: early returns for the three
tenses (for `'future'` the string `'will be Easter'`), and `''` otherwise. -/
def tenseSetter (t : String) : String :=
  if t = "past" then "was Easter"
  else if t = "present" then "is Easter"
  else if t = "future" then "will be Easter"
  else ""

end Part000

namespace Spec

/-!
The 13-step Anonymous Gregorian Computus exactly as the specification (and
claim C1) words it.  The claim reads every division as floor division and
every `mod` as non-negative-result modulo; every divisor below is a positive
literal, for which Lean's `Int` division `/` (`Int.ediv`) is floor division
and `%` (`Int.emod`) is the non-negative modulo, so the spec-side definitions
are written with `/` and `%`.
-/

/-- Spec step 1: `goldenNumber = y mod 19`. -/
def goldenNumber (y : Int) : Int := y % 19

/-- Spec step 2: `century = y div 100`. -/
def century (y : Int) : Int := y / 100

/-- Spec step 2: `yearInCentury = y mod 100`. -/
def yearInCentury (y : Int) : Int := y % 100

/-- Spec step 3: `centuryLeapBlocks = century div 4`. -/
def centuryLeapBlocks (y : Int) : Int := century y / 4

/-- Spec step 3: `centuryLeapRemainder = century mod 4`. -/
def centuryLeapRemainder (y : Int) : Int := century y % 4

/-- Spec step 4: `gregorianLeapSkip = (century + 8) div 25`. -/
def gregorianLeapSkip (y : Int) : Int := (century y + 8) / 25

/-- Spec step 5: `lunarCorrection = (century - gregorianLeapSkip + 1) div 3`. -/
def lunarCorrection (y : Int) : Int := (century y - gregorianLeapSkip y + 1) / 3

/-- Spec step 6: `epact = (19 * goldenNumber + century - centuryLeapBlocks -
lunarCorrection + 15) mod 30`. -/
def epact (y : Int) : Int :=
  (19 * goldenNumber y + century y - centuryLeapBlocks y - lunarCorrection y + 15) % 30

/-- Spec step 7: `yearLeapBlocks = yearInCentury div 4`. -/
def yearLeapBlocks (y : Int) : Int := yearInCentury y / 4

/-- Spec step 7: `yearLeapRemainder = yearInCentury mod 4`. -/
def yearLeapRemainder (y : Int) : Int := yearInCentury y % 4

/-- Spec step 8: `weekdayShift = (32 + 2*centuryLeapRemainder +
2*yearLeapBlocks - epact - yearLeapRemainder) mod 7`. -/
def weekdayShift (y : Int) : Int :=
  (32 + 2 * centuryLeapRemainder y + 2 * yearLeapBlocks y - epact y - yearLeapRemainder y) % 7

/-- Spec step 9: `overflowCorrection = (goldenNumber + 11*epact +
22*weekdayShift) div 451`. -/
def overflowCorrection (y : Int) : Int :=
  (goldenNumber y + 11 * epact y + 22 * weekdayShift y) / 451

/-- Spec step 10: `rawOffset = epact + weekdayShift - 7*overflowCorrection +
114`. -/
def rawOffset (y : Int) : Int :=
  epact y + weekdayShift y - 7 * overflowCorrection y + 114

/-- Spec step 11: `month = rawOffset div 31`. -/
def specMonth (y : Int) : Int := rawOffset y / 31

/-- Spec step 12: `day = (rawOffset mod 31) + 1`. -/
def specDay (y : Int) : Int := rawOffset y % 31 + 1

/-- Spec step 13: the returned triple `(year, month, day)`. -/
def specComputus (y : Int) : Int × Int × Int := (y, specMonth y, specDay y)

end Spec

namespace Uncorrected

/-- Modelled from claim C6's words: the raw offset of the uncorrected
computation, i.e. step 10 with `overflowCorrection` taken to be `0`:
`epact + weekdayShift + 114`.  Stated over the code's intermediates
`EasterJS.h` (epact) and `EasterJS.l` (weekday shift). -/
def rawOffset0 (y : Int) : Int := EasterJS.h y + EasterJS.l y + 114

/-- Modelled from claim C6's words: the month the uncorrected computation
would produce, `rawOffset0 div 31`. -/
def month0 (y : Int) : Int := rawOffset0 y / 31

/-- Modelled from claim C6's words: the day the uncorrected computation
would produce, `(rawOffset0 mod 31) + 1`. -/
def day0 (y : Int) : Int := rawOffset0 y % 31 + 1

end Uncorrected

/-!
Interval bounds for the spec-side intermediates, used throughout: the
cycle-position quantities live in small fixed ranges whatever the year.
-/

lemma spec_goldenNumber_bounds (y : Int) :
    0 ≤ Spec.goldenNumber y ∧ Spec.goldenNumber y ≤ 18 := by
  simp only [Spec.goldenNumber]
  omega

lemma spec_centuryLeapRemainder_bounds (y : Int) :
    0 ≤ Spec.centuryLeapRemainder y ∧ Spec.centuryLeapRemainder y ≤ 3 := by
  simp only [Spec.centuryLeapRemainder, Spec.century]
  omega

lemma spec_epact_bounds (y : Int) : 0 ≤ Spec.epact y ∧ Spec.epact y ≤ 29 := by
  simp only [Spec.epact]
  omega

lemma spec_yearInCentury_bounds (y : Int) :
    0 ≤ Spec.yearInCentury y ∧ Spec.yearInCentury y ≤ 99 := by
  simp only [Spec.yearInCentury]
  omega

lemma spec_yearLeapBlocks_bounds (y : Int) :
    0 ≤ Spec.yearLeapBlocks y ∧ Spec.yearLeapBlocks y ≤ 24 := by
  simp only [Spec.yearLeapBlocks, Spec.yearInCentury]
  omega

lemma spec_yearLeapRemainder_bounds (y : Int) :
    0 ≤ Spec.yearLeapRemainder y ∧ Spec.yearLeapRemainder y ≤ 3 := by
  simp only [Spec.yearLeapRemainder, Spec.yearInCentury]
  omega

lemma spec_weekdayShift_bounds (y : Int) :
    0 ≤ Spec.weekdayShift y ∧ Spec.weekdayShift y ≤ 6 := by
  simp only [Spec.weekdayShift]
  omega

lemma spec_overflowCorrection_bounds (y : Int) :
    0 ≤ Spec.overflowCorrection y ∧ Spec.overflowCorrection y ≤ 1 := by
  have hA := spec_goldenNumber_bounds y
  have hE := spec_epact_bounds y
  have hW := spec_weekdayShift_bounds y
  simp only [Spec.overflowCorrection]
  omega

/-!
Bridge lemmas: for `y ≥ 1583` every dividend reached by the code is
non-negative and every divisor is a positive literal, so the JavaScript
remainder (`Int.tmod`) agrees with the non-negative modulo (`%`) and
`Math.floor` division (`Int.fdiv`) agrees with `/`; each local of
`calculateEasterYMD` therefore equals its counterpart in `Spec`.
-/

lemma easter_a_eq (y : Int) (hy : 1583 ≤ y) : EasterJS.a y = Spec.goldenNumber y := by
  simp only [EasterJS.a, EasterJS.mc, Spec.goldenNumber]
  exact Int.tmod_eq_emod (by omega) (by omega)

lemma easter_b_eq (y : Int) : EasterJS.b y = Spec.century y := by
  simp only [EasterJS.b, Spec.century]
  exact Int.fdiv_eq_ediv _ (by omega)

lemma easter_c_eq (y : Int) (hy : 1583 ≤ y) : EasterJS.c y = Spec.yearInCentury y := by
  simp only [EasterJS.c, Spec.yearInCentury]
  exact Int.tmod_eq_emod (by omega) (by omega)

lemma easter_d_eq (y : Int) : EasterJS.d y = Spec.centuryLeapBlocks y := by
  simp only [EasterJS.d, Spec.centuryLeapBlocks, easter_b_eq]
  exact Int.fdiv_eq_ediv _ (by omega)

lemma easter_e_eq (y : Int) (hy : 1583 ≤ y) : EasterJS.e y = Spec.centuryLeapRemainder y := by
  simp only [EasterJS.e, Spec.centuryLeapRemainder, easter_b_eq]
  refine Int.tmod_eq_emod ?_ (by omega)
  simp only [Spec.century]
  omega

lemma easter_f_eq (y : Int) : EasterJS.f y = Spec.gregorianLeapSkip y := by
  simp only [EasterJS.f, Spec.gregorianLeapSkip, easter_b_eq]
  exact Int.fdiv_eq_ediv _ (by omega)

lemma easter_g_eq (y : Int) : EasterJS.g y = Spec.lunarCorrection y := by
  simp only [EasterJS.g, Spec.lunarCorrection, easter_b_eq, easter_f_eq]
  exact Int.fdiv_eq_ediv _ (by omega)

lemma easter_h_eq (y : Int) (hy : 1583 ≤ y) : EasterJS.h y = Spec.epact y := by
  simp only [EasterJS.h, EasterJS.mc, Spec.epact, easter_a_eq y hy, easter_b_eq,
    easter_d_eq, easter_g_eq]
  refine Int.tmod_eq_emod ?_ (by omega)
  simp only [Spec.goldenNumber, Spec.century, Spec.centuryLeapBlocks,
    Spec.lunarCorrection, Spec.gregorianLeapSkip]
  omega

lemma easter_i_eq (y : Int) (hy : 1583 ≤ y) : EasterJS.i y = Spec.yearLeapBlocks y := by
  simp only [EasterJS.i, Spec.yearLeapBlocks, easter_c_eq y hy]
  exact Int.fdiv_eq_ediv _ (by omega)

lemma easter_k_eq (y : Int) (hy : 1583 ≤ y) : EasterJS.k y = Spec.yearLeapRemainder y := by
  simp only [EasterJS.k, Spec.yearLeapRemainder, easter_c_eq y hy]
  refine Int.tmod_eq_emod ?_ (by omega)
  simp only [Spec.yearInCentury]
  omega

lemma easter_l_eq (y : Int) (hy : 1583 ≤ y) : EasterJS.l y = Spec.weekdayShift y := by
  simp only [EasterJS.l, Spec.weekdayShift, easter_e_eq y hy, easter_i_eq y hy,
    easter_h_eq y hy, easter_k_eq y hy]
  refine Int.tmod_eq_emod ?_ (by omega)
  have hR := spec_centuryLeapRemainder_bounds y
  have hI := spec_yearLeapBlocks_bounds y
  have hE := spec_epact_bounds y
  have hK := spec_yearLeapRemainder_bounds y
  omega

lemma easter_m_eq (y : Int) (hy : 1583 ≤ y) : EasterJS.m y = Spec.overflowCorrection y := by
  simp only [EasterJS.m, Spec.overflowCorrection, easter_a_eq y hy, easter_h_eq y hy,
    easter_l_eq y hy]
  exact Int.fdiv_eq_ediv _ (by omega)

lemma easter_month_eq (y : Int) (hy : 1583 ≤ y) : EasterJS.month y = Spec.specMonth y := by
  simp only [EasterJS.month, Spec.specMonth, Spec.rawOffset, easter_h_eq y hy,
    easter_l_eq y hy, easter_m_eq y hy]
  exact Int.fdiv_eq_ediv _ (by omega)

lemma easter_day_eq (y : Int) (hy : 1583 ≤ y) : EasterJS.day y = Spec.specDay y := by
  simp only [EasterJS.day, Spec.specDay, Spec.rawOffset, easter_h_eq y hy,
    easter_l_eq y hy, easter_m_eq y hy]
  congr 1
  refine Int.tmod_eq_emod ?_ (by omega)
  simp only [Spec.epact, Spec.weekdayShift, Spec.overflowCorrection, Spec.goldenNumber,
    Spec.century, Spec.centuryLeapBlocks, Spec.lunarCorrection, Spec.gregorianLeapSkip,
    Spec.centuryLeapRemainder, Spec.yearLeapBlocks, Spec.yearLeapRemainder,
    Spec.yearInCentury]
  omega

/-- Claim C1: for every integer year `y ≥ 1583`, `calculateEasterYMD y`
returns exactly the triple `(y, month, day)` given by the 13-step Anonymous
Gregorian Computus of spec section 4.1 (`Spec.specComputus`, with floor
division and non-negative modulo). -/
theorem claim1_computus_agrees (y : Int) (hy : 1583 ≤ y) :
    calculateEasterYMD (.int y) = .ok (Spec.specComputus y) := by
  simp only [calculateEasterYMD]
  rw [if_neg (by omega)]
  simp only [Spec.specComputus]
  rw [easter_month_eq y hy, easter_day_eq y hy]

theorem claim1_computus_agrees_witness :
    1583 ≤ (2024 : Int) ∧
      calculateEasterYMD (.int 2024) = .ok (Spec.specComputus 2024) :=
  ⟨by decide, claim1_computus_agrees 2024 (by decide)⟩

/-- Claim C2: for every integer year `1583 ≤ y ≤ 2583`, `calculateEasterYMD y`
returns `(y, month, day)` with `month` equal to 3 or 4; if `month = 3` then
`22 ≤ day ≤ 31`, and if `month = 4` then `1 ≤ day ≤ 25` (never before
March 22 nor after April 25). -/
theorem claim2_easter_range (y : Int) (h1 : 1583 ≤ y) (h2 : y ≤ 2583) :
    calculateEasterYMD (.int y) = .ok (y, EasterJS.month y, EasterJS.day y) ∧
    (EasterJS.month y = 3 ∨ EasterJS.month y = 4) ∧
    (EasterJS.month y = 3 → 22 ≤ EasterJS.day y ∧ EasterJS.day y ≤ 31) ∧
    (EasterJS.month y = 4 → 1 ≤ EasterJS.day y ∧ EasterJS.day y ≤ 25) := by
  refine ⟨?_, ?_⟩
  · simp only [calculateEasterYMD]
    rw [if_neg (by omega)]
  · rw [easter_month_eq y h1, easter_day_eq y h1]
    have hA := spec_goldenNumber_bounds y
    have hE := spec_epact_bounds y
    have hW := spec_weekdayShift_bounds y
    simp only [Spec.specMonth, Spec.specDay, Spec.rawOffset, Spec.overflowCorrection]
    omega

theorem claim2_easter_range_witness :
    1583 ≤ (2024 : Int) ∧ (2024 : Int) ≤ 2583 ∧
      (EasterJS.month 2024 = 3 ∨ EasterJS.month 2024 = 4) :=
  ⟨by decide, by decide, (claim2_easter_range 2024 (by decide) (by decide)).2.1⟩

/-- Claim C3: every input that is not an integer number (non-number values,
`NaN`, non-integral numbers such as 1582.5) is answered with the `TypeError`
whose message is `year must be an integer` and no triple; every integer
`y < 1583` is answered with the `RangeError` about years `>= 1583` and no
triple; every integer `y ≥ 1583`, however large, yields a triple and no
error. -/
theorem claim3_input_guards :
    (∀ v : JSInput, v.isIntegerNumber = false →
      calculateEasterYMD v = .error (.typeError "year must be an integer")) ∧
    (∀ y : Int, y < 1583 →
      calculateEasterYMD (.int y) =
        .error (.rangeError "Gregorian Easter is defined for years >= 1583")) ∧
    (∀ y : Int, 1583 ≤ y →
      calculateEasterYMD (.int y) = .ok (y, EasterJS.month y, EasterJS.day y)) := by
  refine ⟨?_, ?_, ?_⟩
  · intro v hv
    cases v with
    | int n => simp [JSInput.isIntegerNumber] at hv
    | nonIntNumber => rfl
    | nan => rfl
    | nonNumber => rfl
  · intro y hy
    simp only [calculateEasterYMD]
    rw [if_pos hy]
  · intro y hy
    simp only [calculateEasterYMD]
    rw [if_neg (by omega)]

theorem claim3_input_guards_witness :
    (JSInput.nan.isIntegerNumber = false ∧
      calculateEasterYMD .nan = .error (.typeError "year must be an integer")) ∧
    ((1582 : Int) < 1583 ∧
      calculateEasterYMD (.int 1582) =
        .error (.rangeError "Gregorian Easter is defined for years >= 1583")) ∧
    (1583 ≤ (2024 : Int) ∧
      calculateEasterYMD (.int 2024) =
        .ok (2024, EasterJS.month 2024, EasterJS.day 2024)) :=
  ⟨⟨by decide, claim3_input_guards.1 .nan (by decide)⟩,
   ⟨by decide, claim3_input_guards.2.1 1582 (by decide)⟩,
   ⟨by decide, claim3_input_guards.2.2 2024 (by decide)⟩⟩

/-- Claim C4: the four known-value tests hold exactly:
`calculateEasterYMD 2024 = (2024, 3, 31)`, `calculateEasterYMD 2025 =
(2025, 4, 20)`, `calculateEasterYMD 2000 = (2000, 4, 23)` and
`calculateEasterYMD 1900 = (1900, 4, 15)`. -/
theorem claim4_known_values :
    calculateEasterYMD (.int 2024) = .ok (2024, 3, 31) ∧
    calculateEasterYMD (.int 2025) = .ok (2025, 4, 20) ∧
    calculateEasterYMD (.int 2000) = .ok (2000, 4, 23) ∧
    calculateEasterYMD (.int 1900) = .ok (1900, 4, 15) :=
  ⟨rfl, rfl, rfl, rfl⟩

/-- Claim C5 counterexample: `calculateEasterYMD 1583` does not return
`(1583, 3, 31)`; the spec's golden value for 1583 disagrees with the code. -/
theorem claim5_year_1583_counterexample :
    calculateEasterYMD (.int 1583) ≠ .ok (1583, 3, 31) := by
  decide

/-- Claim C5, amended: `calculateEasterYMD 1583 = (1583, 4, 10)` — the code
places Easter 1583 on April 10 (the historically correct Gregorian date),
not on March 31. -/
theorem claim5_year_1583_amended :
    calculateEasterYMD (.int 1583) = .ok (1583, 4, 10) :=
  rfl

/-- Claim C6 counterexample: in 1954 the overflow correction `m` equals 1
although the uncorrected computation (`overflowCorrection = 0`) would place
Easter on April 25 — not on March 21 or April 26 as the claim asserts. -/
theorem claim6_overflow_counterexample :
    EasterJS.m 1954 = 1 ∧
    Uncorrected.month0 1954 = 4 ∧ Uncorrected.day0 1954 = 25 := by
  decide

/-- Claim C6, amended: for every year `y ≥ 1583` the overflow correction is
0 or 1; it is 1 exactly when `epact = 29` and `weekdayShift = 6` — the case
in which the uncorrected computation would give April 26 — or when
`epact = 28`, `weekdayShift = 6` and `goldenNumber ≥ 11`, in which case the
uncorrected computation gives April 25; the uncorrected computation never
gives March 21. -/
theorem claim6_overflow_correction_amended (y : Int) (hy : 1583 ≤ y) :
    (EasterJS.m y = 0 ∨ EasterJS.m y = 1) ∧
    (EasterJS.m y = 1 ↔
      (EasterJS.h y = 29 ∧ EasterJS.l y = 6) ∨
      (EasterJS.h y = 28 ∧ EasterJS.l y = 6 ∧ 11 ≤ EasterJS.a y)) ∧
    ((EasterJS.h y = 29 ∧ EasterJS.l y = 6) ↔
      (Uncorrected.month0 y = 4 ∧ Uncorrected.day0 y = 26)) ∧
    ¬(Uncorrected.month0 y = 3 ∧ Uncorrected.day0 y = 21) := by
  have hA := spec_goldenNumber_bounds y
  have hE := spec_epact_bounds y
  have hW := spec_weekdayShift_bounds y
  simp only [Uncorrected.month0, Uncorrected.day0, Uncorrected.rawOffset0]
  rw [easter_m_eq y hy, easter_h_eq y hy, easter_l_eq y hy, easter_a_eq y hy]
  simp only [Spec.overflowCorrection]
  omega

theorem claim6_overflow_correction_witness :
    1583 ≤ (1954 : Int) ∧ (EasterJS.m 1954 = 0 ∨ EasterJS.m 1954 = 1) :=
  ⟨by decide, (claim6_overflow_correction_amended 1954 (by decide)).1⟩

/-- Claim C7: for every year `y ≥ 1583` every left operand of a `%`
operation inside `calculateEasterYMD` is non-negative — the year itself
(for `% 19` and `% 100`), the century `b` (for `% 4`), the year-in-century
`c` (for `% 4`), the epact numerator, the weekday-shift numerator (in
particular `32 + 2*e + 2*i - h - k ≥ 0`) and the day numerator — so the
JavaScript remainder coincides with the non-negative modulo in every step,
and the weekday shift `l` lies in `[0, 6]`. -/
theorem claim7_nonneg_mod_operands (y : Int) (hy : 1583 ≤ y) :
    0 ≤ y ∧ 0 ≤ EasterJS.b y ∧ 0 ≤ EasterJS.c y ∧
    0 ≤ EasterJS.mc * EasterJS.a y + EasterJS.b y - EasterJS.d y - EasterJS.g y + 15 ∧
    0 ≤ 32 + 2 * EasterJS.e y + 2 * EasterJS.i y - EasterJS.h y - EasterJS.k y ∧
    0 ≤ EasterJS.h y + EasterJS.l y - 7 * EasterJS.m y + 114 ∧
    0 ≤ EasterJS.l y ∧ EasterJS.l y ≤ 6 := by
  rw [easter_a_eq y hy, easter_b_eq y, easter_c_eq y hy, easter_d_eq y, easter_e_eq y hy,
    easter_g_eq y, easter_h_eq y hy, easter_i_eq y hy, easter_k_eq y hy, easter_l_eq y hy,
    easter_m_eq y hy]
  simp only [EasterJS.mc]
  have hR := spec_centuryLeapRemainder_bounds y
  have hI := spec_yearLeapBlocks_bounds y
  have hE := spec_epact_bounds y
  have hK := spec_yearLeapRemainder_bounds y
  have hW := spec_weekdayShift_bounds y
  have hM := spec_overflowCorrection_bounds y
  simp only [Spec.century, Spec.centuryLeapBlocks, Spec.lunarCorrection,
    Spec.gregorianLeapSkip, Spec.goldenNumber, Spec.yearInCentury]
  omega

theorem claim7_nonneg_mod_operands_witness :
    1583 ≤ (2024 : Int) ∧ 0 ≤ (2024 : Int) :=
  ⟨by decide, (claim7_nonneg_mod_operands 2024 (by decide)).1⟩

/-- Claim C8 counterexample: at year 45200 the intermediate `century`
(`b = y div 100`) equals 452, outside the claimed range 0–451. -/
theorem claim8_bounds_counterexample :
    1583 ≤ (45200 : Int) ∧ 451 < EasterJS.b 45200 := by
  decide

/-- Claim C8, amended: for every year `y ≥ 1583` each of the twelve
intermediates is a non-negative integer; the eight that measure positions
inside a cycle — `a` (goldenNumber), `c` (yearInCentury), `e`
(centuryLeapRemainder), `h` (epact), `i` (yearLeapBlocks), `k`
(yearLeapRemainder), `l` (weekdayShift) and `m` (overflowCorrection) — lie
in the range 0 to 451 inclusive, while `b` (century), `d`
(centuryLeapBlocks), `f` (gregorianLeapSkip) and `g` (lunarCorrection) grow
without bound with the year (`b` exceeds 451 from year 45200 on). -/
theorem claim8_intermediate_ranges (y : Int) (hy : 1583 ≤ y) :
    (0 ≤ EasterJS.a y ∧ EasterJS.a y ≤ 451) ∧
    0 ≤ EasterJS.b y ∧
    (0 ≤ EasterJS.c y ∧ EasterJS.c y ≤ 451) ∧
    0 ≤ EasterJS.d y ∧
    (0 ≤ EasterJS.e y ∧ EasterJS.e y ≤ 451) ∧
    0 ≤ EasterJS.f y ∧
    0 ≤ EasterJS.g y ∧
    (0 ≤ EasterJS.h y ∧ EasterJS.h y ≤ 451) ∧
    (0 ≤ EasterJS.i y ∧ EasterJS.i y ≤ 451) ∧
    (0 ≤ EasterJS.k y ∧ EasterJS.k y ≤ 451) ∧
    (0 ≤ EasterJS.l y ∧ EasterJS.l y ≤ 451) ∧
    (0 ≤ EasterJS.m y ∧ EasterJS.m y ≤ 451) := by
  rw [easter_a_eq y hy, easter_b_eq y, easter_c_eq y hy, easter_d_eq y, easter_e_eq y hy,
    easter_f_eq y, easter_g_eq y, easter_h_eq y hy, easter_i_eq y hy, easter_k_eq y hy,
    easter_l_eq y hy, easter_m_eq y hy]
  have hA := spec_goldenNumber_bounds y
  have hC := spec_yearInCentury_bounds y
  have hR := spec_centuryLeapRemainder_bounds y
  have hE := spec_epact_bounds y
  have hI := spec_yearLeapBlocks_bounds y
  have hK := spec_yearLeapRemainder_bounds y
  have hW := spec_weekdayShift_bounds y
  have hM := spec_overflowCorrection_bounds y
  simp only [Spec.century, Spec.centuryLeapBlocks, Spec.gregorianLeapSkip,
    Spec.lunarCorrection]
  omega

theorem claim8_intermediate_ranges_witness :
    1583 ≤ (2024 : Int) ∧ (0 ≤ EasterJS.a 2024 ∧ EasterJS.a 2024 ≤ 451) :=
  ⟨by decide, (claim8_intermediate_ranges 2024 (by decide)).1⟩

/-- Claim C9 counterexample: for the tense `'future'` the first two UI
variants do not produce the phrase `will be Easter`; they produce
`will Easter be`. -/
theorem claim9_tense_counterexample :
    MainV1.tenseSetter "future" ≠ some "will be Easter" ∧
    MainV2.tenseSetter "future" ≠ "will be Easter" := by
  decide

/-- Claim C9, amended: in all three UI variants `tenseSetter` maps `'past'`
to `was Easter` and `'present'` to `is Easter`; for `'future'` the two
variants in `src/main.js` return `will Easter be`, and only the
`src/unnamed/part_000` variant returns the spec's phrase `will be Easter`. -/
theorem claim9_tense_phrases_amended :
    (MainV1.tenseSetter "past" = some "was Easter" ∧
     MainV1.tenseSetter "present" = some "is Easter" ∧
     MainV1.tenseSetter "future" = some "will Easter be") ∧
    (MainV2.tenseSetter "past" = "was Easter" ∧
     MainV2.tenseSetter "present" = "is Easter" ∧
     MainV2.tenseSetter "future" = "will Easter be") ∧
    (Part000.tenseSetter "past" = "was Easter" ∧
     Part000.tenseSetter "present" = "is Easter" ∧
     Part000.tenseSetter "future" = "will be Easter") := by
  decide

/-- Claim C10: the inline `calculateEaster` of `src/main.js` diverges from
`calculateEasterYMD` of `src/easter.js` at year 1981: the inline copy
computes `m` from `22 * 1` (a literal 1 where its own comment and
`src/easter.js` use the variable `l`), misses the overflow correction, and
returns April 26 — outside the valid Easter window — where the library
returns April 19. -/
theorem claim10_inline_variant_diverges :
    MainV1.calculateEaster 1981 = (1981, 4, 26) ∧
    calculateEasterYMD (.int 1981) = .ok (1981, 4, 19) ∧
    MainV1.calculateEaster 1981 ≠ (1981, EasterJS.month 1981, EasterJS.day 1981) := by
  refine ⟨rfl, rfl, by decide⟩
